import Mathlib

/-!
# Verification of the Sentinel decision core

A shallow embedding of the decision core of the `sentinel` web-exploration
agent, translated from the Python sources:

* `sentinel/layers/intelligence/brains/heuristic_brain.py` (HeuristicBrain)
* `sentinel/core/goal_parser.py` (RegexGoalParser and the goal data model)
* `sentinel/core/orchestrator.py` (SentinelOrchestrator.run and helpers)
* `sentinel/layers/sense/dom_mapper.py` (ElementNode)

Python `float` scores and confidences are modelled by `ℚ` (the scoring
algorithm only adds, multiplies and compares decimal constants, so the
ordering facts proved here are those of the algorithm's arithmetic).
Python `str` is modelled by `String`; `dict` by association lists;
`None`-able strings by `Option String`.  External collaborators (browser
driver, DOM mapper, executor, recorder) are modelled as oracles.
-/

/- Mathlib marks the arithmetic of `ℚ` irreducible, which blocks `decide`
on concrete score computations; the kernel is unaffected, so restoring the
default reducibility only lets closed evaluations go through. -/
set_option allowUnsafeReducibility true
attribute [local semireducible] Rat.add Rat.mul Rat.sub Rat.neg Rat.div Rat.inv Rat.ofScientific

namespace Sentinel

/-! ## Basic Python-style string utilities -/

/-- ASCII lower-casing of one character. -/
def charLower (c : Char) : Char :=
  if 'A' ≤ c ∧ c ≤ 'Z' then Char.ofNat (c.toNat + 32) else c

/-- `s.lower()` on ASCII text. -/
def toLowerStr (s : String) : String := String.mk (s.data.map charLower)

/-- Whether `n` is a leading segment of `h`. -/
def charsPre : List Char → List Char → Bool
  | [], _ => true
  | _ :: _, [] => false
  | a :: as, b :: bs => a == b && charsPre as bs

/-- Whether `n` occurs contiguously inside `h`. -/
def charsContains (n : List Char) : List Char → Bool
  | [] => charsPre n []
  | c :: cs => charsPre n (c :: cs) || charsContains n cs

/-- Python `needle in hay` substring containment. -/
def strIn (needle hay : String) : Bool := charsContains needle.data hay.data

/-- Python truthiness of an optional string: `None` and `""` are falsy. -/
def optTruthy : Option String → Bool
  | none => false
  | some s => s ≠ ""

/-- Python f-string rendering of an `Optional[str]` (`None` prints as `"None"`). -/
def pyStr : Option String → String
  | none => "None"
  | some s => s

/-- Python `x or y` on a `str` and an `Optional[str]`, with a final `or ""`
(used for `best_elem.selector or best_elem.shadow_path or ""`). -/
def pyOrStr (s : String) (t : Option String) : String :=
  if s ≠ "" then s
  else match t with
       | some u => if u ≠ "" then u else ""
       | none => ""

/-- Python `history[-10:]`: the last `n` elements of a list. -/
def lastN (n : Nat) (l : List α) : List α := l.drop (l.length - n)

/-- Python `min` on rationals (kernel-reducible; equals `min`). -/
def ratMin (a b : ℚ) : ℚ := if a ≤ b then a else b

/-- Python `max` on rationals (kernel-reducible; equals `max`). -/
def ratMax (a b : ℚ) : ℚ := if a ≤ b then b else a

/-- Python `abs` on rationals (kernel-reducible; equals `|·|`). -/
def ratAbs (a : ℚ) : ℚ := if a < 0 then -a else a

theorem ratMin_eq_min (a b : ℚ) : ratMin a b = min a b := (min_def a b).symm

theorem ratMax_eq_max (a b : ℚ) : ratMax a b = max a b := (max_def a b).symm

/-- Maximal runs of characters satisfying `p` (the semantics of
`re.findall(r'[class]+', text)` for a single character class).
`cur` is the current run, accumulated in reverse. -/
def tokenRunsAux (p : Char → Bool) : List Char → List Char → List (List Char)
  | cur, [] => if cur.isEmpty then [] else [cur.reverse]
  | cur, c :: cs =>
    if p c then tokenRunsAux p (c :: cur) cs
    else if cur.isEmpty then tokenRunsAux p [] cs
    else cur.reverse :: tokenRunsAux p [] cs

def tokenRuns (p : Char → Bool) (l : List Char) : List (List Char) :=
  tokenRunsAux p [] l

/-- Split a character list at every character satisfying `p`, keeping empty
pieces (the semantics of `re.split(r'[class]', s)` for a single-character
class). -/
def splitKeepEmpty (p : Char → Bool) : List Char → List (List Char)
  | [] => [[]]
  | c :: cs =>
    if p c then [] :: splitKeepEmpty p cs
    else match splitKeepEmpty p cs with
         | [] => [[c]]
         | r :: rs => (c :: r) :: rs

/-! ## Data model

Translated from `goal_parser.py` (`TargetSpec`, `GoalStep`, `ParsedGoal`),
`dom_mapper.py` (`ElementNode`) and `brains/base.py` (`Decision`). -/

/-- `TargetSpec` from `goal_parser.py`. -/
structure TargetSpec where
  text : Option String := none
  css_class : Option String := none
  id : Option String := none
  role : Option String := none
  attributes : List (String × String) := []
  deriving Repr, DecidableEq

/-- `GoalStep` from `goal_parser.py`. -/
structure GoalStep where
  action : String
  target : TargetSpec
  value : Option String := none
  context_hint : Option String := none
  description : String := ""
  is_completed : Bool := false
  deriving Repr, DecidableEq

/-- `ParsedGoal` from `goal_parser.py`. -/
structure ParsedGoal where
  raw_goal : String
  steps : List GoalStep := []
  current_step_index : Nat := 0
  deriving Repr, DecidableEq

/-- `ParsedGoal.current_step`: the step at the cursor, if in range. -/
def ParsedGoal.current_step (pg : ParsedGoal) : Option GoalStep :=
  pg.steps.get? pg.current_step_index

/-- `ParsedGoal.is_completed`: all steps completed. -/
def ParsedGoal.is_completed (pg : ParsedGoal) : Bool :=
  pg.steps.all (·.is_completed)

/-- `ParsedGoal.next_step`: mark the current step completed (when it exists)
and advance the cursor. -/
def ParsedGoal.next_step (pg : ParsedGoal) : ParsedGoal :=
  { pg with
    steps := match pg.current_step with
             | some s => pg.steps.set pg.current_step_index { s with is_completed := true }
             | none => pg.steps
    current_step_index := pg.current_step_index + 1 }

/-- `ElementNode` from `dom_mapper.py`.  The `bounding_box` dict is modelled
as an optional `(x, y)` pair (`none` for the empty/absent dict; sub-pixel
coordinates are rationals). -/
structure ElementNode where
  id : String
  tag : String
  text : String
  selector : String
  shadow_path : Option String := none
  attributes : List (String × String) := []
  bounding_box : Option (ℚ × ℚ) := none
  is_visible : Bool := true
  is_interactive : Bool := true
  element_type : String := "standard"
  context_text : String := ""
  deriving Repr, DecidableEq

/-- `Decision` from `brains/base.py`.  `metadata` values are `Optional[str]`
(the only key the brain writes is `"text"`, populated from `step.value`). -/
structure Decision where
  action : String
  target : String
  reasoning : String
  confidence : ℚ
  metadata : List (String × Option String) := []
  deriving Repr, DecidableEq

/-- `dict.get k` on an attribute mapping. -/
def attrGet (attrs : List (String × String)) (k : String) : Option String :=
  (attrs.find? (fun p => p.1 == k)).map (·.2)

/-- `dict.get k default` on an attribute mapping. -/
def attrGetD (attrs : List (String × String)) (k d : String) : String :=
  (attrGet attrs k).getD d

/-! ## Semantic token-overlap relevance
(`HeuristicBrain._score_context_relevance`) -/

/-- Character class of `re.findall(r'[a-z0-9\-\.]+', text)` (the text has
already been lowercased). -/
def isTokChar (c : Char) : Bool :=
  (c.isLower && c.isAlpha) || c.isDigit || c == '-' || c == '.'

/-- The stop-word set of `_score_context_relevance.tokenize`. -/
def stopWords : List String :=
  ["click", "type", "verify", "navigate", "wait", "check", "select", "press",
   "the", "a", "an", "in", "on", "at", "for", "with", "to", "of", "by", "from",
   "button", "link", "input", "field", "text", "page", "site", "app",
   "is", "are", "be", "was", "were", "and", "or", "but"]

/-- `tokenize` from `_score_context_relevance`. -/
def tokenize (use_stop_words : Bool) (text : String) : List String :=
  let raw := (tokenRuns isTokChar (toLowerStr text).data).map (fun l => String.mk l)
  if !use_stop_words then raw.filter (fun t => t.length > 1)
  else raw.filter (fun t => t.length > 2 && !(stopWords.contains t))

/-- `re.split(r'[\-\_\.]', t)` as strings. -/
def splitPunct (t : String) : List String :=
  (splitKeepEmpty (fun c => c == '-' || c == '_' || c == '.') t.data).map
    (fun l => String.mk l)

/-- The sub-token set built from a token list: the tokens themselves plus,
for every token containing `-`/`_`/`.`, its punctuation-split segments.
Python uses a `set`; the overlap weight below is summed over distinct
members, so a deduplicated list is an exact model. -/
def subTokenSet (tokens : List String) : List String :=
  (tokens ++ tokens.flatMap (fun t =>
    if t.data.contains '-' || t.data.contains '_' || t.data.contains '.' then splitPunct t
    else [])).dedup

/-- Per-common-token weight from `_score_context_relevance`. -/
def tokenWeight (t : String) : ℚ :=
  let w : ℚ := 0.3
  let w := if t.length > 5 then w + 0.1 else w
  let w := if t.length > 8 then w + 0.2 else w
  let w := if (t.data.any Char.isDigit) && (t.data.any Char.isAlpha) then w + 0.3 else w
  if t.data.contains '-' || t.data.contains '_' || t.data.contains '.' then w + 0.2 else w

/-- `HeuristicBrain._score_context_relevance`. -/
def scoreContextRelevance (goal_description element_context : String)
    (use_stop_words : Bool := true) : ℚ :=
  if element_context = "" || goal_description = "" then 0
  else
    let goal_sub := subTokenSet (tokenize use_stop_words goal_description)
    let context_sub := subTokenSet (tokenize use_stop_words element_context)
    let common := goal_sub.filter (fun t => context_sub.contains t && t.length > 2)
    if common.isEmpty then 0
    else ratMin 0.7 ((common.map tokenWeight).sum)

/-! ## Spatial-context fallback (`HeuristicBrain._find_spatial_context`) -/

/-- Stable insertion (ascending by distance) used to model Python's stable
`list.sort(key=lambda x: x[1])`: an element is inserted before the already
placed elements (which come later in the original list) of equal key. -/
def insertAsc (x : String × ℚ) : List (String × ℚ) → List (String × ℚ)
  | [] => [x]
  | y :: ys => if y.2 < x.2 then y :: insertAsc x ys else x :: y :: ys

def sortAsc (l : List (String × ℚ)) : List (String × ℚ) :=
  l.foldr insertAsc []

/-- `HeuristicBrain._find_spatial_context`. -/
def findSpatialContext (target_elem : ElementNode) (world : List ElementNode) : String :=
  match target_elem.bounding_box with
  | none => ""
  | some (tx, ty) =>
    let candidates := world.filterMap (fun e =>
      if e = target_elem then none
      else match e.bounding_box with
        | none => none
        | some (ex, ey) =>
          let ydiff := ty - ey
          if 0 < ydiff ∧ ydiff < 400 then
            if ratAbs (tx - ex) < 300 then
              let is_header := ["h1", "h2", "h3", "h4", "h5", "h6", "strong"].contains e.tag
              some (e.text, if is_header then ydiff * 0.5 else ydiff)
            else none
          else none)
    if candidates.isEmpty then ""
    else String.intercalate " | " (((sortAsc candidates).take 2).map (·.1))

/-! ## Per-candidate scoring (`HeuristicBrain._score_element`)

The Python method accumulates five additive contributions into `score`
(recording each in a debug `details` dict) and returns `max(0, score)`.
Each contribution is translated as its own definition; `scoreElementRaw`
is the signed accumulator and `scoreElement` the returned value. -/

/-- Contribution 1: action/tag compatibility boost. -/
def actionBoost (elem : ElementNode) (step : GoalStep) : ℚ :=
  let tag := toLowerStr elem.tag
  if step.action = "click" then
    (if tag = "button" ∨ tag = "a" then 0.2 else 0) +
    (if attrGet elem.attributes "type" = some "submit" ∨
        attrGet elem.attributes "type" = some "button" then 0.2 else 0)
  else if step.action = "type" then
    (if tag = "input" ∨ tag = "textarea" then 0.3 else 0)
  else 0

/-- Contribution 2: text matching against element text and key attributes. -/
def textBoost (elem : ElementNode) (step : GoalStep) : ℚ :=
  if optTruthy step.target.text then
    let target_text := toLowerStr (step.target.text.getD "")
    let elem_text := toLowerStr elem.text
    let text_score := scoreContextRelevance target_text elem_text false
    let tb : ℚ :=
      if text_score > 0.2 then
        text_score * 2.5 + (if target_text = elem_text then 0.5 else 0)
      else -1.0
    let attr_boost : ℚ :=
      ((["aria-label", "title", "placeholder", "name"].map (fun a =>
        let attr_val := toLowerStr (attrGetD elem.attributes a "")
        if attr_val ≠ "" then
          if target_text = attr_val then (1.2 : ℚ)
          else if strIn target_text attr_val ∨ strIn attr_val target_text then 0.8
          else 0
        else 0)).sum)
    tb + attr_boost
  else 0

/-- Contribution 3: id / css-class structural match. -/
def metaBoost (elem : ElementNode) (step : GoalStep) : ℚ :=
  (if optTruthy step.target.id ∧ some elem.id = step.target.id then (0.9 : ℚ) else 0) +
  (if optTruthy step.target.css_class ∧
      strIn (step.target.css_class.getD "") (attrGetD elem.attributes "class" "") then
     (0.8 : ℚ) else 0)

/-- Contribution 4: context-hint disambiguation (strong bonus or absolute
penalty), with a small description-based boost when no hint is present. -/
def contextBoost (elem : ElementNode) (step : GoalStep) (world : List ElementNode) : ℚ :=
  if optTruthy step.context_hint then
    let context_text := toLowerStr elem.context_text
    let context_text := if context_text = "" then findSpatialContext elem world
                        else context_text
    let c_score := scoreContextRelevance (toLowerStr (step.context_hint.getD ""))
                     context_text true
    if c_score > 0.35 then c_score * 2.5 else -10.0
  else
    if step.description ≠ "" ∧ elem.context_text ≠ "" then
      (scoreContextRelevance step.description elem.context_text true) * 0.5
    else 0

/-- Contribution 5a: the generic-label (site-chrome) penalty. -/
def genericLabelPenalty (elem : ElementNode) (step : GoalStep) : ℚ :=
  if step.action = "click" ∧ optTruthy step.target.text then
    let lower_label := toLowerStr elem.text ++ toLowerStr (attrGetD elem.attributes "aria-label" "")
    let ttext := toLowerStr (step.target.text.getD "")
    if (strIn "menu" lower_label ∨ strIn "navigation" lower_label ∨
        strIn "toggle" lower_label) ∧
       ¬ strIn "menu" ttext ∧ ¬ strIn "navigation" ttext then -1.5
    else 0
  else 0

/-- The number of the last 10 decisions whose (non-empty) target equals
this candidate's selector. -/
def recentTargetCount (elem : ElementNode) (history : List Decision) : Nat :=
  List.count elem.selector ((lastN 10 history).filterMap
    (fun d => if d.target ≠ "" then some d.target else none))

/-- Contribution 5b: the loop-avoidance penalty. -/
def loopPenalty (elem : ElementNode) (history : List Decision) : ℚ :=
  if history ≠ [] then
    if recentTargetCount elem history > 0 then
      -(1.0 * (recentTargetCount elem history : ℚ))
    else 0
  else 0

/-- Contribution 5: generic-label penalty plus loop-avoidance penalty. -/
def penaltyScore (elem : ElementNode) (step : GoalStep) (history : List Decision) : ℚ :=
  genericLabelPenalty elem step + loopPenalty elem history

/-- The signed accumulator of `_score_element` (the value of the local
`score` variable just before the `return`). -/
def scoreElementRaw (elem : ElementNode) (step : GoalStep) (history : List Decision)
    (world : List ElementNode) : ℚ :=
  actionBoost elem step + textBoost elem step + metaBoost elem step +
    contextBoost elem step world + penaltyScore elem step history

/-- `HeuristicBrain._score_element`: returns `max(0, score)`. -/
def scoreElement (elem : ElementNode) (step : GoalStep) (history : List Decision)
    (world : List ElementNode) : ℚ :=
  ratMax 0 (scoreElementRaw elem step history world)

/-! ## Candidate selection (`HeuristicBrain.decide`) -/

/-- The filtered and scored candidate list of `HeuristicBrain.decide`
(lines 27-38): visible, interactive, not blacklisted, positive score.
The optional Python `blacklist` parameter is modelled as a list, `None`
as `[]` (the guard `if blacklist and ...` skips empty blacklists). -/
def scoredCandidates (goal : GoalStep) (world_state : List ElementNode)
    (history : List Decision) (blacklist : List String) : List (ElementNode × ℚ) :=
  world_state.filterMap (fun elem =>
    if !elem.is_visible || !elem.is_interactive then none
    else if !blacklist.isEmpty && blacklist.contains elem.selector then none
    else if scoreElement elem goal history world_state > 0 then
      some (elem, scoreElement elem goal history world_state)
    else none)

/-- Stable descending insertion used to model Python's stable
`scored_elements.sort(key=lambda x: x[1], reverse=True)`: an element is
inserted before the already placed elements (which come later in the
original list) of equal score. -/
def insertDesc (x : ElementNode × ℚ) : List (ElementNode × ℚ) → List (ElementNode × ℚ)
  | [] => [x]
  | y :: ys => if y.2 > x.2 then y :: insertDesc x ys else x :: y :: ys

def sortDesc (l : List (ElementNode × ℚ)) : List (ElementNode × ℚ) :=
  l.foldr insertDesc []

/-- `HeuristicBrain.decide`.  The Python `reasoning` f-strings embed
`goal.value`, a 30-character text preview and `repr(goal.target)`; they are
diagnostics only (spec §3) and are rendered here without the quote marks. -/
def HeuristicBrain.decide (goal : GoalStep) (world_state : List ElementNode)
    (history : List Decision) (blacklist : List String) : Decision :=
  let scored_elements := sortDesc (scoredCandidates goal world_state history blacklist)
  match scored_elements with
  | [] =>
    if goal.action = "verify" then
      { action := "wait", target := "body",
        reasoning := "Waiting for verification target: " ++ pyStr goal.value,
        confidence := 0.5, metadata := [] }
    else
      { action := "scroll", target := "body",
        reasoning := "No matching elements found, scrolling to discover more",
        confidence := 0.3, metadata := [] }
  | (best_elem, best_score) :: _ =>
    if goal.action = "verify" then
      { action := "verify", target := "body",
        reasoning := "Verification target " ++ pyStr goal.value ++ " found in world state",
        confidence := 1.0, metadata := [] }
    else
      { action := goal.action,
        target := pyOrStr best_elem.selector best_elem.shadow_path,
        reasoning := "Matched " ++ String.mk (best_elem.text.data.take 30) ++
          " with goal target",
        confidence := best_score,
        metadata := if goal.action = "type" then [("text", goal.value)] else [] }

/-! ## Goal parser (`goal_parser.py`, `RegexGoalParser`)

Each Python regex is translated as an explicit scanner with the same
backtracking behaviour (`re.search` = leftmost match; lazy groups take the
shortest prefix that lets the rest match; greedy `\s+` is maximal-munch,
exact here because every following token starts with a non-space).  `.`
is modelled as "any character" (the goals contain no newlines). -/

/-- Python `\s` character class. -/
def pyIsSpace (c : Char) : Bool :=
  c == ' ' || c == '\t' || c == '\n' || c == '\r' || c == '\x0b' || c == '\x0c'

/-- Python `str.strip()`. -/
def pyStrip (s : String) : String :=
  String.mk (((s.data.dropWhile pyIsSpace).reverse.dropWhile pyIsSpace).reverse)

/-- Python `str.strip("'\" ")` (used on `TargetSpec.text`). -/
def stripQuoteSpace (s : String) : String :=
  let p := fun c : Char => c == '\'' || c == '"' || c == ' '
  String.mk (((s.data.dropWhile p).reverse.dropWhile p).reverse)

/-- Consume the literal `pat` case-insensitively; `none` when it is not a
prefix. -/
def stripLitCI : List Char → List Char → Option (List Char)
  | [], l => some l
  | _ :: _, [] => none
  | p :: ps, c :: cs => if charLower p == charLower c then stripLitCI ps cs else none

/-- `\s+`: at least one whitespace character, maximal munch. -/
def spaces1 : List Char → Option (List Char)
  | [] => none
  | c :: cs => if pyIsSpace c then some (cs.dropWhile pyIsSpace) else none

/-- An optional `word\s+` group (`(?:word\s+)?`). -/
def optWordSp (w : String) (l : List Char) : List Char :=
  (do let a ← stripLitCI w.data l; spaces1 a).getD l

/-- The separator matcher of `re.split(r'\s+(?:and\s+)?then\s+', ...)`:
the remainder after a match starting exactly here. -/
def thenSepHere (l : List Char) : Option (List Char) := do
  let l1 ← spaces1 l
  (do let a ← stripLitCI "and".data l1
      let b ← spaces1 a
      let c ← stripLitCI "then".data b
      spaces1 c) <|>
  (do let a ← stripLitCI "then".data l1
      spaces1 a)

def splitThenAux : Nat → List Char → List Char → List String
  | _, acc, [] => [String.mk acc.reverse]
  | 0, acc, l => [String.mk (acc.reverse ++ l)]
  | fuel + 1, acc, l@(c :: cs) =>
    match thenSepHere l with
    | some rest => String.mk acc.reverse :: splitThenAux fuel [] rest
    | none => splitThenAux fuel (c :: acc) cs

/-- `re.split(r'\s+(?:and\s+)?then\s+', goal, re.IGNORECASE)`. -/
def splitThen (goal : String) : List String :=
  splitThenAux (goal.length + 1) [] goal.data

/-- The verbs of the `and`-split lookahead. -/
def andVerbs : List String :=
  ["click", "type", "enter", "input", "search", "find", "verify", "navigate", "go", "open"]

/-- The separator matcher of
`re.split(r'\s+and\s+(?=click|type|...|open)', ...)`; the lookahead does not
consume. -/
def andSepHere (l : List Char) : Option (List Char) := do
  let l1 ← spaces1 l
  let l2 ← stripLitCI "and".data l1
  let l3 ← spaces1 l2
  if andVerbs.any (fun v => (stripLitCI v.data l3).isSome) then some l3 else none

def splitAndAux : Nat → List Char → List Char → List String
  | _, acc, [] => [String.mk acc.reverse]
  | 0, acc, l => [String.mk (acc.reverse ++ l)]
  | fuel + 1, acc, l@(c :: cs) =>
    match andSepHere l with
    | some rest => String.mk acc.reverse :: splitAndAux fuel [] rest
    | none => splitAndAux fuel (c :: acc) cs

def splitAnd (goal : String) : List String :=
  splitAndAux (goal.length + 1) [] goal.data

/-- The tail `['\"]?([^'\"].*?)['\"]?$` of the context regex: an optional
leading quote, then a lazy group whose first character is not a quote,
closed by an optional trailing quote at end of string. -/
def ctxTail (l : List Char) : Option (List Char) :=
  let core : List Char → Option (List Char) := fun m =>
    match m with
    | [] => none
    | c :: cs =>
      if c == '\'' || c == '"' then none
      else
        let rest := match cs.getLast? with
          | some q => if q == '\'' || q == '"' then cs.dropLast else cs
          | none => cs
        some (c :: rest)
  match l with
  | c :: cs => if c == '\'' || c == '"' then core cs else core l
  | [] => none

/-- The greedy `\s+` before the tail group, with backtracking: the tail is
tried after `k` spaces for `k` from the maximal run down to 1 (a space is a
legal first character of `[^'\"].*?`, so giving back spaces can succeed). -/
def ctxSpacedTail (l2 : List Char) : Nat → Option (List Char)
  | 0 => none
  | k + 1 => ctxTail (l2.drop (k + 1)) <|> ctxSpacedTail l2 k

/-- One separator alternative `word\s+` followed by the tail group. -/
def ctxSepTail (w : String) (l1 : List Char) : Option (List Char) := do
  let l2 ← stripLitCI w.data l1
  ctxSpacedTail l2 (l2.takeWhile pyIsSpace).length

/-- A match of `\s+(?:for|in|associated with|near|of)\s+['\"]?([^'\"].*?)['\"]?$`
starting exactly here; returns group 2. -/
def ctxSepHere (l : List Char) : Option (List Char) := do
  let l1 ← spaces1 l
  ctxSepTail "for" l1 <|> ctxSepTail "in" l1 <|> ctxSepTail "associated with" l1 <|>
    ctxSepTail "near" l1 <|> ctxSepTail "of" l1

/-- `re.search(r"(.*?)\s+(?:for|in|associated with|near|of)\s+['\"]?([^'\"].*?)['\"]?$", text)`:
the lazy group 1 stops at the earliest position where the rest matches. -/
def ctxSplitAux : Nat → List Char → List Char → Option (List Char × List Char)
  | 0, _, _ => none
  | fuel + 1, pre, l =>
    match ctxSepHere l with
    | some g2 => some (pre.reverse, g2)
    | none =>
      match l with
      | [] => none
      | c :: cs => ctxSplitAux fuel (c :: pre) cs

def ctxSplit (text : String) : Option (String × String) :=
  (ctxSplitAux (text.length + 1) [] text.data).map
    (fun p => (String.mk p.1, String.mk p.2))

/-- `re.search(r"['\"]([^'\"]+)['\"]", s)`: the first quoted fragment
(either quote may open or close it). -/
def findQuotedAux : Nat → List Char → Option (List Char)
  | 0, _ => none
  | _, [] => none
  | fuel + 1, c :: cs =>
    if c == '\'' || c == '"' then
      let run := cs.takeWhile (fun x => !(x == '\'' || x == '"'))
      if !run.isEmpty then
        match cs.drop run.length with
        | q :: _ => if q == '\'' || q == '"' then some run else findQuotedAux fuel cs
        | [] => findQuotedAux fuel cs
      else findQuotedAux fuel cs
    else findQuotedAux fuel cs

def findQuoted (s : String) : Option String :=
  (findQuotedAux (s.length + 1) s.data).map String.mk

/-- A match of `verify\s+(?:that\s+)?(?:the\s+)?(.*)$` starting exactly
here; returns group 1. -/
def verifyHere (l : List Char) : Option (List Char) := do
  let l1 ← stripLitCI "verify".data l
  let l2 ← spaces1 l1
  some (optWordSp "the" (optWordSp "that" l2))

def verifySearchAux : Nat → List Char → Option (List Char)
  | 0, _ => none
  | fuel + 1, l =>
    match verifyHere l with
    | some g => some g
    | none =>
      match l with
      | [] => none
      | _ :: cs => verifySearchAux fuel cs

def verifySearch (s : String) : Option String :=
  (verifySearchAux (s.length + 1) s.data).map String.mk

/-- After the quoted value of the type/search regex: mandatory `\s+`, an
optional preposition (committed on a literal match, since the lazy final
group always succeeds), `\s*`, then group 2 = the rest. -/
def typeQuotedTail (l : List Char) : Option (List Char × List Char) :=
  match l with
  | c :: cs =>
    if c == '\'' || c == '"' then
      let run := cs.takeWhile (fun x => !(x == '\'' || x == '"'))
      if run.isEmpty then none
      else
        match cs.drop run.length with
        | q :: after =>
          if q == '\'' || q == '"' then do
            let l5 ← spaces1 after
            let l6 := ((stripLitCI "in".data l5) <|> (stripLitCI "into".data l5) <|>
                       (stripLitCI "on".data l5) <|> (stripLitCI "the".data l5) <|>
                       (stripLitCI "at".data l5)).getD l5
            some (run, l6.dropWhile pyIsSpace)
          else none
        | [] => none
    else none
  | [] => none

/-- A match of
`(?:type|enter|input|search|find|lookup)\s+(?:for\s+)?['\"]([^'\"]+)['\"]\s+(?:in|into|on|the|at)?\s*(.*?)$`
starting exactly here; returns (group 1, group 2). -/
def typeHere (l : List Char) : Option (List Char × List Char) := do
  let l1 ← (stripLitCI "type".data l) <|> (stripLitCI "enter".data l) <|>
           (stripLitCI "input".data l) <|> (stripLitCI "search".data l) <|>
           (stripLitCI "find".data l) <|> (stripLitCI "lookup".data l)
  let l2 ← spaces1 l1
  match (do let a ← stripLitCI "for".data l2; spaces1 a) with
  | some l3 => typeQuotedTail l3 <|> typeQuotedTail l2
  | none => typeQuotedTail l2

def typeSearchAux : Nat → List Char → Option (List Char × List Char)
  | 0, _ => none
  | fuel + 1, l =>
    match typeHere l with
    | some g => some g
    | none => match l with
              | [] => none
              | _ :: cs => typeSearchAux fuel cs

def typeSearch (s : String) : Option (String × String) :=
  (typeSearchAux (s.length + 1) s.data).map (fun p => (String.mk p.1, String.mk p.2))

/-- `\s+(?:in|into|on|the|at)\s+(.*)`: the separator group of the unquoted
search regex, starting exactly here; returns group 2. -/
def unqSepHere (l : List Char) : Option (List Char) := do
  let l1 ← spaces1 l
  (do let a ← stripLitCI "in".data l1; spaces1 a) <|>
  (do let a ← stripLitCI "into".data l1; spaces1 a) <|>
  (do let a ← stripLitCI "on".data l1; spaces1 a) <|>
  (do let a ← stripLitCI "the".data l1; spaces1 a) <|>
  (do let a ← stripLitCI "at".data l1; spaces1 a)

/-- The lazy group 1 of the unquoted regex stops at the earliest separator
occurrence; with none, it takes everything. -/
def unqSplitAux : Nat → List Char → List Char → (List Char × Option (List Char))
  | 0, pre, l => (pre.reverse ++ l, none)
  | fuel + 1, pre, l =>
    match unqSepHere l with
    | some g2 => (pre.reverse, some g2)
    | none =>
      match l with
      | [] => (pre.reverse, none)
      | c :: cs => unqSplitAux fuel (c :: pre) cs

/-- A match of
`(?:search|find|lookup|type|enter)\s+(?:for\s+)?(.*?)(?:\s+(?:in|into|on|the|at)\s+(.*))?$`
starting exactly here; returns (group 1, optional group 2). -/
def unqHere (l : List Char) : Option (List Char × Option (List Char)) := do
  let l1 ← (stripLitCI "search".data l) <|> (stripLitCI "find".data l) <|>
           (stripLitCI "lookup".data l) <|> (stripLitCI "type".data l) <|>
           (stripLitCI "enter".data l)
  let l2 ← spaces1 l1
  let l3 := optWordSp "for" l2
  some (unqSplitAux (l3.length + 1) [] l3)

def unqSearchAux : Nat → List Char → Option (List Char × Option (List Char))
  | 0, _ => none
  | fuel + 1, l =>
    match unqHere l with
    | some g => some g
    | none => match l with
              | [] => none
              | _ :: cs => unqSearchAux fuel cs

def unqSearch (s : String) : Option (String × Option String) :=
  (unqSearchAux (s.length + 1) s.data).map
    (fun p => (String.mk p.1, p.2.map String.mk))

/-- A match of `click\s+(?:the\s+)?(.*?)$` starting exactly here. -/
def clickHere (l : List Char) : Option (List Char) := do
  let l1 ← stripLitCI "click".data l
  let l2 ← spaces1 l1
  some (optWordSp "the" l2)

def clickSearchAux : Nat → List Char → Option (List Char)
  | 0, _ => none
  | fuel + 1, l =>
    match clickHere l with
    | some g => some g
    | none => match l with
              | [] => none
              | _ :: cs => clickSearchAux fuel cs

def clickSearch (s : String) : Option String :=
  (clickSearchAux (s.length + 1) s.data).map String.mk

/-- The URL group `https?://\S+` when it starts exactly here (the greedy
`\S+` extends the match to the end of the non-space run). -/
def navUrlHere (l : List Char) : Option (List Char) :=
  let run := l.takeWhile (fun c => !pyIsSpace c)
  if (stripLitCI "https://".data l).isSome then
    if run.length ≥ 9 then some run else none
  else if (stripLitCI "http://".data l).isSome then
    if run.length ≥ 8 then some run else none
  else none

/-- A match of `(?:navigate|go|open)\s+(?:to\s+)?(https?://\S+)` starting
exactly here; returns group 1. -/
def navHere (l : List Char) : Option (List Char) := do
  let l1 ← (stripLitCI "navigate".data l) <|> (stripLitCI "go".data l) <|>
           (stripLitCI "open".data l)
  let l2 ← spaces1 l1
  navUrlHere (optWordSp "to" l2)

def navSearchAux : Nat → List Char → Option (List Char)
  | 0, _ => none
  | fuel + 1, l =>
    match navHere l with
    | some g => some g
    | none => match l with
              | [] => none
              | _ :: cs => navSearchAux fuel cs

def navSearch (s : String) : Option String :=
  (navSearchAux (s.length + 1) s.data).map String.mk

/-- `re.sub(r"\s+(?:w₁|w₂|…)$", "", s)`: strip one trailing
whitespace-plus-word suffix (the words of the list do not overlap as
suffixes, so at most one applies). -/
def stripTrailingWord (words : List String) (s : String) : String :=
  let low := (toLowerStr s).data
  let n := s.length
  let hit := words.filterMap (fun w =>
    let wl := w.length
    if wl < n ∧ low.drop (n - wl) = (toLowerStr w).data then
      let beforeRev := (low.take (n - wl)).reverse
      let sp := (beforeRev.takeWhile pyIsSpace).length
      if sp ≥ 1 then some (n - wl - sp) else none
    else none)
  match hit with
  | i :: _ => String.mk (s.data.take i)
  | [] => s

/-- `re.sub(r"^(?:w₁|w₂|…)\s+", "", s)`: strip one leading word (tried in
the alternation's order) followed by whitespace. -/
def stripLeadingWord (words : List String) (s : String) : String :=
  let low := (toLowerStr s).data
  let hit := words.filterMap (fun w =>
    if low.take w.length = (toLowerStr w).data then
      let after := s.data.drop w.length
      let sp := (after.takeWhile pyIsSpace).length
      if sp ≥ 1 then some (w.length + sp) else none
    else none)
  match hit with
  | i :: _ => String.mk (s.data.drop i)
  | [] => s

/-- `\s+(?:with|the)\s+` starting exactly here. -/
def connHere (l : List Char) : Option (List Char) := do
  let l1 ← spaces1 l
  let l2 ← (stripLitCI "with".data l1) <|> (stripLitCI "the".data l1)
  spaces1 l2

/-- `re.sub(r"\s+(?:with|the)\s+", " ", text)`: each non-overlapping match
becomes one space; scanning resumes after the match. -/
def subConnectorAux : Nat → List Char → List Char → List Char
  | _, acc, [] => acc.reverse
  | 0, acc, l => acc.reverse ++ l
  | fuel + 1, acc, l@(c :: cs) =>
    match connHere l with
    | some rest => subConnectorAux fuel (' ' :: acc) rest
    | none => subConnectorAux fuel (c :: acc) cs

def subConnector (s : String) : String :=
  String.mk (subConnectorAux (s.length + 1) [] s.data)

/-- `[a-zA-Z0-9_-]` of the `class:`/`id:`/`role:` token. -/
def isKeyTokChar (c : Char) : Bool :=
  c.isAlpha || c.isDigit || c == '_' || c == '-'

/-- A match of `key\s*[:\s]\s*([a-zA-Z0-9_-]+)` starting exactly here;
returns (length of group 0, group 1).  The separator is either a colon
surrounded by optional whitespace or at least one whitespace character. -/
def keyHere (key : String) (l : List Char) : Option (Nat × List Char) := do
  let l1 ← stripLitCI key.data l
  let w := (l1.takeWhile pyIsSpace).length
  let afterW := l1.drop w
  match afterW with
  | ':' :: r2 =>
    let w2 := (r2.takeWhile pyIsSpace).length
    let tok := (r2.drop w2).takeWhile isKeyTokChar
    if tok.isEmpty then none
    else some (key.length + w + 1 + w2 + tok.length, tok)
  | _ =>
    if w ≥ 1 then
      let tok := afterW.takeWhile isKeyTokChar
      if tok.isEmpty then none else some (key.length + w + tok.length, tok)
    else none

def keySearchAux (key : String) : Nat → List Char → Option (List Char × List Char)
  | 0, _ => none
  | fuel + 1, l =>
    match keyHere key l with
    | some (n, tok) => some (l.take n, tok)
    | none => match l with
              | [] => none
              | _ :: cs => keySearchAux key fuel cs

/-- `re.search` for one `key: value` extraction; returns (group 0 as
matched, group 1). -/
def keySearch (key : String) (l : List Char) : Option (List Char × List Char) :=
  keySearchAux key (l.length + 1) l

/-- Python `text.replace(sub, "")` (all occurrences, left to right). -/
def removeAllSub (sub : List Char) : Nat → List Char → List Char
  | _, [] => []
  | 0, l => l
  | fuel + 1, l@(c :: cs) =>
    if !sub.isEmpty && charsPre sub l then removeAllSub sub fuel (l.drop sub.length)
    else c :: removeAllSub sub fuel cs

/-- `RegexGoalParser._parse_target`. -/
def parseTarget (text : String) : TargetSpec :=
  let t0 := text.data
  let (cls, t1) := match keySearch "class" t0 with
    | some (g0, tok) => (some (String.mk tok), removeAllSub g0 (t0.length + 1) t0)
    | none => (none, t0)
  let (idv, t2) := match keySearch "id" t1 with
    | some (g0, tok) => (some (String.mk tok), removeAllSub g0 (t1.length + 1) t1)
    | none => (none, t1)
  let (rolev, t3) := match keySearch "role" t2 with
    | some (g0, tok) => (some (String.mk tok), removeAllSub g0 (t2.length + 1) t2)
    | none => (none, t2)
  let clean1 := pyStrip (subConnector (String.mk t3))
  let clean2 := pyStrip (stripTrailingWord
    ["button", "link", "icon", "dropdown", "menu", "toggle", "field", "input"] clean1)
  { text := if clean2 ≠ "" then some (stripQuoteSpace clean2) else none,
    css_class := cls, id := idv, role := rolev, attributes := [] }

/-- `RegexGoalParser._parse_single_step`. -/
def parseSingleStep (text : String) : Option GoalStep :=
  let (base_text, context_hint) :=
    match ctxSplit text with
    | some (g1, g2) => (pyStrip g1, some (pyStrip g2))
    | none => (text, none)
  let quoted_value := findQuoted base_text
  -- 1. VERIFY patterns
  match verifySearch base_text with
  | some g1 =>
    let val := match quoted_value with
      | some q => pyStrip q
      | none =>
        pyStrip (stripLeadingWord ["text", "title", "heading", "header", "page", "the"]
          (pyStrip (stripTrailingWord
            ["exists", "appears", "is visible", "is present", "says", "matches"]
            (pyStrip g1))))
    some { action := "verify", target := {}, value := some val,
           context_hint := context_hint, description := text }
  | none =>
  -- 2. TYPE/SEARCH patterns, quoted value first
  match typeSearch base_text with
  | some (g1, g2) =>
    some { action := "type",
           target := parseTarget (if g2 ≠ "" then g2 else "search"),
           value := some g1, context_hint := context_hint, description := text }
  | none =>
  -- unquoted type/search; degenerate values fall through to the click patterns
  let unq : Option GoalStep :=
    match unqSearch base_text with
    | some (g1, g2) =>
      let val := pyStrip g1
      let target_raw := match g2 with
        | some t => if t ≠ "" then t else "search"
        | none => "search"
      if val ≠ "" ∧ ¬ ["the", "a", "for"].contains (toLowerStr val) then
        some { action := "type", target := parseTarget target_raw,
               value := some val, context_hint := context_hint, description := text }
      else none
    | none => none
  match unq with
  | some st => some st
  | none =>
  -- 3. CLICK patterns
  match clickSearch base_text with
  | some g1 =>
    some { action := "click", target := parseTarget g1,
           context_hint := context_hint, description := text }
  | none =>
  -- 4. NAVIGATE patterns
  match navSearch base_text with
  | some url =>
    some { action := "navigate", target := {}, value := some url,
           context_hint := context_hint, description := text }
  | none =>
  -- 5. Generic fallback
  if (base_text.data.dropWhile pyIsSpace).isEmpty then none
  else some { action := "click", target := parseTarget base_text,
              context_hint := context_hint, description := text }

/-- `RegexGoalParser.parse`.  (The Python fallback appends
`_parse_single_step(f"achieve {goal}")` unconditionally; for a non-blank
goal that call always yields a step, via the generic fallback at worst.) -/
def RegexGoalParser.parse (goal : String) : ParsedGoal :=
  let step_texts := splitThen goal
  let step_texts := if step_texts.length = 1 then splitAnd goal else step_texts
  let parsed_steps := step_texts.filterMap (fun raw => parseSingleStep (pyStrip raw))
  let parsed_steps :=
    if parsed_steps.isEmpty ∧ pyStrip goal ≠ "" then
      match parseSingleStep ("achieve " ++ goal) with
      | some st => [st]
      | none => []
    else parsed_steps
  { raw_goal := goal, steps := parsed_steps, current_step_index := 0 }

/-! ## Orchestration loop (`orchestrator.py`, `SentinelOrchestrator`)

External collaborators (driver, DOM mapper, visual analyzer, executor) are
oracles indexed by the loop iteration; a `.error` value models a raised
Python exception.  The recorder is write-only (spec §6) and modelled as
non-throwing; `_wait_for_target_element` and `_wait_for_stability` swallow
their exceptions internally and are modelled as no-ops.  `start_time` and
`end_time` (wall clock) are omitted from `ExecutionResult`.  The captcha
auto-stealth pivot and `_handle_blocked_state` (lines 268-280) are folded
into the single oracle `resolve_block`.  `_text_visible_on_page` runs
JavaScript in the browser and is the oracle `text_visible`.  The
`DecisionEngine` router the orchestrator instantiates (`brain_type=...`)
is not the `decision_engine.py` in the tree (whose constructor does not
accept `brain_type`); modelled from the spec: §4.3, a router holding one
brain behind `decide(goal_step, world_state, history, full_goal,
blacklist) -> Decision`, here the oracle `brain` (instantiated with
`HeuristicBrain.decide` for concrete runs). -/

/-- `SentinelConfig` (the fields the embedded loop reads; the rest
configure external collaborators). -/
structure SentinelConfig where
  url : String
  goal : String
  max_steps : Nat := 50
  deriving Repr, DecidableEq

/-- `ExecutionResult` from `orchestrator.py` (without the wall-clock
timestamps). -/
structure ExecutionResult where
  success : Bool
  goal : String
  url : String
  steps : Nat
  max_steps : Nat
  decisions : List Decision
  report_path : Option String := none
  error : Option String := none
  deriving Repr, DecidableEq

/-- One sensing cycle: `get_world_state()` and `is_blocked()`. -/
structure SenseResult where
  world_state : List ElementNode
  is_blocked : Bool
  reason : String

/-- The external collaborators of one run.  `url_at i 0` is
`driver.current_url` read when `_execute_and_verify` is invoked (the
`before_state` capture), `url_at i 1` the read after the action, and
`url_at i 2` the read inside the loop's `_goal_achieved` call. -/
structure Collaborators where
  init_error : Option String := none
  nav_error : Option String := none
  sense : Nat → Except String SenseResult
  resolve_block : Nat → String → Except String Bool
  brain : GoalStep → List ElementNode → List Decision → ParsedGoal → List String →
    Except String Decision
  url_at : Nat → Nat → Except String String
  snapshot : Nat → Nat → Except String String
  execute : Nat → Decision → Except String Bool
  text_visible : String → Bool
  report_path : String

/-- `SentinelOrchestrator._goal_achieved` (evaluated against a parsed goal;
in Python `self._parsed_goal` is always set once `run` has parsed the
goal). -/
def goalAchieved (pg : ParsedGoal) (decisions : List Decision)
    (text_visible : String → Bool) (current_url : String) : Bool :=
  match pg.current_step with
  | none => true
  | some current_step =>
    if current_step.action = "verify" then
      (optTruthy current_step.value && text_visible (current_step.value.getD "") &&
        (match decisions.getLast? with
         | some d => decide ((0.6 : ℚ) ≤ d.confidence)
         | none => false)) ||
      (match decisions.getLast? with
       | some d => d.action == "verify" && decide ((0.9 : ℚ) ≤ d.confidence)
       | none => false)
    else if current_step.action = "navigate" then
      optTruthy current_step.value && strIn (current_step.value.getD "") current_url
    else
      match decisions.getLast? with
      | some d => d.action == current_step.action && decide ((0.5 : ℚ) ≤ d.confidence)
      | none => false

/-- `SentinelOrchestrator._execute_and_verify`. -/
def executeAndVerify (C : Collaborators) (i : Nat) (decision : Decision)
    (pg : ParsedGoal) (before_url : String) : Except String Bool := do
  let before_snap ← C.snapshot i 0
  let success ← C.execute i decision
  if !success then return false
  let after_snap ← C.snapshot i 1
  let after_url ← C.url_at i 1
  if decision.action = "click" ∨ decision.action = "type" then
    if after_url ≠ before_url then return true
    else if after_snap ≠ before_snap then return true
    else if goalAchieved pg [decision] C.text_visible after_url then return true
    else return false
  else return true

/-- The three ways the `for step in range(max_steps)` body can end the
run: an early successful return, falling out of the loop (a `break` or
exhaustion) with the `error_msg` set so far, or an exception to be caught
by the surrounding `try`. -/
inductive LoopOutcome where
  | finished (res : ExecutionResult)
  | fellThrough (error_msg : Option String) (decisions : List Decision)
  | exn (msg : String) (decisions : List Decision)
  deriving Repr

/-- The loop body of `SentinelOrchestrator.run` (lines 247-335), iterated
over the remaining range of `max_steps`. -/
def runLoop (C : Collaborators) (cfg : SentinelConfig) :
    Nat → ParsedGoal → Nat → List Decision → List String → LoopOutcome
  | 0, _, _, decisions, _ => .fellThrough none decisions
  | remaining + 1, pg, i, decisions, blacklist =>
    match C.sense i with
    | .error e => .exn e decisions
    | .ok sr =>
      if sr.is_blocked then
        match C.resolve_block i sr.reason with
        | .error e => .exn e decisions
        | .ok handled =>
          if handled then runLoop C cfg remaining pg (i + 1) decisions blacklist
          else .fellThrough (some ("Blocked by: " ++ sr.reason)) decisions
      else
        match pg.current_step with
        | none => .fellThrough none decisions
        | some current_step =>
          match C.brain current_step sr.world_state decisions pg blacklist with
          | .error e => .exn e decisions
          | .ok decision =>
            match C.url_at i 0 with
            | .error e => .exn e (decisions ++ [decision])
            | .ok before_url =>
              match executeAndVerify C i decision pg before_url with
              | .error e => .exn e (decisions ++ [decision])
              | .ok success =>
                if !success ∧ decision.target ≠ "" ∧ decision.target ≠ "body" then
                  runLoop C cfg remaining pg (i + 1) (decisions ++ [decision])
                    (blacklist ++ [decision.target])
                else
                  match C.url_at i 2 with
                  | .error e => .exn e (decisions ++ [decision])
                  | .ok cur_url =>
                    if goalAchieved pg (decisions ++ [decision]) C.text_visible cur_url then
                      if pg.next_step.is_completed then
                        .finished { success := true, goal := cfg.goal, url := cfg.url,
                                    steps := i + 1, max_steps := cfg.max_steps,
                                    decisions := decisions ++ [decision],
                                    report_path := some C.report_path, error := none }
                      else runLoop C cfg remaining pg.next_step (i + 1)
                        (decisions ++ [decision]) []
                    else runLoop C cfg remaining pg (i + 1) (decisions ++ [decision])
                      blacklist

/-- `SentinelOrchestrator.run`.  `_initialize()` and the goal parse run
before the `try` block, so an exception there propagates (`.error`); the
navigation and loop run inside the `try`, whose handler turns an exception
into a failure result, and the `finally` always generates a report. -/
def SentinelOrchestrator.run (C : Collaborators) (cfg : SentinelConfig) :
    Except String ExecutionResult :=
  match C.init_error with
  | some e => .error e
  | none =>
    let pg := RegexGoalParser.parse cfg.goal
    let body : LoopOutcome :=
      match C.nav_error with
      | some e => .exn e []
      | none => runLoop C cfg cfg.max_steps pg 0 [] []
    match body with
    | .finished res => .ok res
    | .fellThrough em ds =>
      .ok { success := false, goal := cfg.goal, url := cfg.url, steps := ds.length,
            max_steps := cfg.max_steps, decisions := ds,
            report_path := some C.report_path,
            error := some (em.getD "Max steps reached without achieving goal") }
    | .exn e ds =>
      .ok { success := false, goal := cfg.goal, url := cfg.url, steps := ds.length,
            max_steps := cfg.max_steps, decisions := ds,
            report_path := some C.report_path, error := some e }

/-! ## Helper lemmas -/

theorem toLowerStr_ne_empty {s : String} (h : s ≠ "") : toLowerStr s ≠ "" := by
  intro he
  apply h
  cases s with
  | mk data =>
    have hm : data.map charLower = [] := congrArg String.data he
    have hd : data = [] := by
      cases data with
      | nil => rfl
      | cons c cs => simp at hm
    rw [hd]

/-- The context-hint branch of `contextBoost` on a strong match. -/
theorem contextBoost_strong (elem : ElementNode) (step : GoalStep)
    (world : List ElementNode)
    (hh : optTruthy step.context_hint = true)
    (hc : toLowerStr elem.context_text ≠ "")
    (hs : (0.35 : ℚ) < scoreContextRelevance (toLowerStr (step.context_hint.getD ""))
            (toLowerStr elem.context_text) true) :
    contextBoost elem step world =
      scoreContextRelevance (toLowerStr (step.context_hint.getD ""))
        (toLowerStr elem.context_text) true * 2.5 := by
  unfold contextBoost
  simp only [hh, if_true, if_neg hc]
  rw [if_pos hs]

/-- The context-hint branch of `contextBoost` on a weak match: the absolute
penalty. -/
theorem contextBoost_weak (elem : ElementNode) (step : GoalStep)
    (world : List ElementNode)
    (hh : optTruthy step.context_hint = true)
    (hc : toLowerStr elem.context_text ≠ "")
    (hs : scoreContextRelevance (toLowerStr (step.context_hint.getD ""))
            (toLowerStr elem.context_text) true ≤ 0.35) :
    contextBoost elem step world = -10.0 := by
  unfold contextBoost
  simp only [hh, if_true, if_neg hc]
  rw [if_neg (not_lt.mpr hs)]

/-! ## C3: the returned score is the clamped, not the raw, sum -/

/-- Claim C3, counterexample data: a context-hint mismatch with no other
signal sums to −10, but the function returns 0. -/
def c3elem : ElementNode :=
  { id := "e-c3", tag := "div", text := "", selector := "#c3",
    context_text := "other stuff" }

def c3step : GoalStep :=
  { action := "click", target := {}, context_hint := some "pricing card" }

/-- C3 counterexample: the claim says the returned score equals the
unclamped signed sum and may be negative; on this input the signed sum is
−10 while `_score_element` returns 0 (`max(0, score)`), so the returned
score is not the signed sum and is never negative. -/
theorem C3_counterexample :
    scoreElementRaw c3elem c3step [] [c3elem] = -10 ∧
    scoreElement c3elem c3step [] [c3elem] = 0 := by
  constructor <;> decide

/-- C3 amended: the per-candidate score returned by `_score_element` is the
signed sum of the additive contributions clamped at zero
(`max(0, score)`); in particular it is never negative. -/
theorem C3_scoreElement_clamped (elem : ElementNode) (step : GoalStep)
    (history : List Decision) (world : List ElementNode) :
    scoreElement elem step history world
      = max 0 (actionBoost elem step + textBoost elem step + metaBoost elem step +
          contextBoost elem step world + penaltyScore elem step history) ∧
    0 ≤ scoreElement elem step history world := by
  refine ⟨by rw [scoreElement, ratMax_eq_max]; rfl, ?_⟩
  rw [scoreElement, ratMax_eq_max]
  exact le_max_left 0 _

/-! ## C4: context-match dominance -/

/-- C4 amended: with both candidates carrying non-empty `context_text`, the
candidate whose context matches the hint (token overlap > 0.35) scores at
least as high as the otherwise-identical candidate whose context does not,
and strictly higher whenever its own signed sum is positive; when both
signed sums are non-positive the two returned scores are both clamped
to 0. -/
theorem C4_context_dominance (e1 : ElementNode) (c2 : String) (step : GoalStep)
    (history : List Decision) (world : List ElementNode)
    (hh : optTruthy step.context_hint = true)
    (h1 : e1.context_text ≠ "") (h2 : c2 ≠ "")
    (hm1 : (0.35 : ℚ) < scoreContextRelevance (toLowerStr (step.context_hint.getD ""))
             (toLowerStr e1.context_text) true)
    (hm2 : scoreContextRelevance (toLowerStr (step.context_hint.getD ""))
             (toLowerStr c2) true ≤ 0.35) :
    scoreElement { e1 with context_text := c2 } step history world ≤
      scoreElement e1 step history world ∧
    (0 < scoreElementRaw e1 step history world →
      scoreElement { e1 with context_text := c2 } step history world <
        scoreElement e1 step history world) := by
  set e2 : ElementNode := { e1 with context_text := c2 } with he2
  have hctx1 := contextBoost_strong e1 step world hh (toLowerStr_ne_empty h1) hm1
  have hctx2 : contextBoost e2 step world = -10.0 := by
    apply contextBoost_weak e2 step world hh
    · exact toLowerStr_ne_empty h2
    · exact hm2
  have ha : actionBoost e2 step = actionBoost e1 step := rfl
  have ht : textBoost e2 step = textBoost e1 step := rfl
  have hm : metaBoost e2 step = metaBoost e1 step := rfl
  have hp : penaltyScore e2 step history = penaltyScore e1 step history := rfl
  have hraw : scoreElementRaw e2 step history world <
      scoreElementRaw e1 step history world := by
    unfold scoreElementRaw
    rw [ha, ht, hm, hp, hctx1, hctx2]
    have : (0.35 : ℚ) * 2.5 < scoreContextRelevance
        (toLowerStr (step.context_hint.getD "")) (toLowerStr e1.context_text) true * 2.5 := by
      nlinarith [hm1]
    nlinarith [this]
  constructor
  · rw [scoreElement, scoreElement, ratMax_eq_max, ratMax_eq_max]
    exact max_le_max le_rfl hraw.le
  · intro hpos
    rw [scoreElement, scoreElement, ratMax_eq_max, ratMax_eq_max,
      max_eq_right hpos.le]
    exact max_lt hpos hraw

/-- C4 counterexample data: two candidates identical except `context_text`,
whose other contributions push the signed sums below zero. -/
def c4e1 : ElementNode :=
  { id := "e-c4", tag := "div", text := "menu", selector := "#c4",
    context_text := "wireless mouse" }

def c4e2 : ElementNode := { c4e1 with context_text := "usb cable" }

def c4step : GoalStep :=
  { action := "click", target := { text := some "submit" },
    context_hint := some "wireless mouse" }

/-- C4 counterexample: the context of `c4e1` matches the hint
(overlap 0.7 > 0.35) and that of `c4e2` does not (overlap 0 ≤ 0.35), the
two elements differ only in `context_text`, yet both returned scores are 0
(both signed sums are negative and `max(0, ·)` clamps them), so the
matching candidate does not score strictly higher. -/
theorem C4_counterexample :
    c4e2 = { c4e1 with context_text := "usb cable" } ∧
    (0.35 : ℚ) < scoreContextRelevance (toLowerStr (c4step.context_hint.getD ""))
      (toLowerStr c4e1.context_text) true ∧
    scoreContextRelevance (toLowerStr (c4step.context_hint.getD ""))
      (toLowerStr c4e2.context_text) true ≤ 0.35 ∧
    scoreElement c4e1 c4step [] [c4e1, c4e2] =
      scoreElement c4e2 c4step [] [c4e1, c4e2] := by
  refine ⟨rfl, by decide, by decide, by decide⟩

/-- C4 witness data: the spec's own Example 4 ("Add to cart" under
"Wireless Mouse" vs under "USB Cable"). -/
def c4we : ElementNode :=
  { id := "e-c4w", tag := "button", text := "Add to cart", selector := "#w4",
    context_text := "Wireless Mouse" }

def c4wstep : GoalStep :=
  { action := "click", target := { text := some "Add to cart" },
    context_hint := some "Wireless Mouse" }

/-- C4 witness: at a concrete input with a positive signed sum the amended
dominance is strict. -/
theorem C4_context_dominance_witness :
    0 < scoreElementRaw c4we c4wstep [] [] ∧
    scoreElement { c4we with context_text := "USB Cable" } c4wstep [] [] <
      scoreElement c4we c4wstep [] [] :=
  ⟨by decide,
   (C4_context_dominance c4we "USB Cable" c4wstep [] [] (by decide) (by decide)
      (by decide) (by decide) (by decide)).2 (by decide)⟩

/-! ## C5: loop-avoidance monotonicity -/

/-- Appending one more decision on the candidate's (non-empty) selector,
while the window does not yet slide (fewer than 10 prior decisions),
lowers the loop-avoidance penalty by exactly 1. -/
theorem recentTargetCount_append (elem : ElementNode)
    (history : List Decision) (d : Decision)
    (hd : d.target = elem.selector) (hsel : elem.selector ≠ "")
    (hlen : history.length < 10) :
    recentTargetCount elem (history ++ [d]) = recentTargetCount elem history + 1 := by
  unfold recentTargetCount
  have hlast : lastN 10 (history ++ [d]) = history ++ [d] := by
    unfold lastN
    rw [Nat.sub_eq_zero_of_le (by simp; omega)]
    simp
  have hlast0 : lastN 10 history = history := by
    unfold lastN
    rw [Nat.sub_eq_zero_of_le hlen.le]
    simp
  rw [hlast, hlast0, List.filterMap_append]
  have hfd : List.filterMap
      (fun dd : Decision => if dd.target ≠ "" then some dd.target else none) [d]
      = [elem.selector] := by
    simp [List.filterMap, hd, hsel]
  rw [hfd, List.count_append]
  simp

theorem penaltyScore_append (elem : ElementNode) (step : GoalStep)
    (history : List Decision) (d : Decision)
    (hd : d.target = elem.selector) (hsel : elem.selector ≠ "")
    (hlen : history.length < 10) :
    penaltyScore elem step (history ++ [d]) =
      penaltyScore elem step history - 1 := by
  unfold penaltyScore
  have hlp : loopPenalty elem (history ++ [d]) = loopPenalty elem history - 1 := by
    unfold loopPenalty
    rw [recentTargetCount_append elem history d hd hsel hlen]
    have happ : history ++ [d] ≠ [] := by simp
    rw [if_pos happ, if_pos (by omega : recentTargetCount elem history + 1 > 0)]
    rcases List.eq_nil_or_concat history with hnil | ⟨l, a, rfl⟩
    · subst hnil
      have hz : recentTargetCount elem ([] : List Decision) = 0 := by
        simp [recentTargetCount, lastN]
      rw [hz]
      norm_num
    · have hne : l.concat a ≠ [] := by simp
      rw [if_pos hne]
      rcases Nat.eq_zero_or_pos (recentTargetCount elem (l.concat a)) with hz | hp
      · rw [hz]
        norm_num
      · rw [if_pos (by omega : recentTargetCount elem (l.concat a) > 0)]
        push_cast
        ring
  rw [hlp]
  ring

/-- C5 amended: when one more recent decision targeting the candidate's
non-empty selector is appended (and no matching decision is displaced from
the 10-decision window, guaranteed here by fewer than 10 prior decisions),
the returned score never increases, and strictly decreases whenever the
score under the shorter history is positive; when that score is already 0
the clamp `max(0, ·)` keeps both scores equal. -/
theorem C5_loop_avoidance (elem : ElementNode) (step : GoalStep)
    (history : List Decision) (world : List ElementNode) (d : Decision)
    (hd : d.target = elem.selector) (hsel : elem.selector ≠ "")
    (hlen : history.length < 10) :
    scoreElement elem step (history ++ [d]) world ≤
      scoreElement elem step history world ∧
    (0 < scoreElement elem step history world →
      scoreElement elem step (history ++ [d]) world <
        scoreElement elem step history world) := by
  have hraw : scoreElementRaw elem step (history ++ [d]) world =
      scoreElementRaw elem step history world - 1 := by
    unfold scoreElementRaw
    rw [penaltyScore_append elem step history d hd hsel hlen]
    ring
  have hlt : scoreElementRaw elem step (history ++ [d]) world <
      scoreElementRaw elem step history world := by
    rw [hraw]; linarith
  constructor
  · rw [scoreElement, scoreElement, ratMax_eq_max, ratMax_eq_max]
    exact max_le_max le_rfl hlt.le
  · intro hpos
    rw [scoreElement, ratMax_eq_max] at hpos ⊢
    rw [scoreElement, ratMax_eq_max]
    have hpraw : 0 < scoreElementRaw elem step history world := by
      rcases lt_max_iff.mp hpos with h | h
      · exact absurd h (lt_irrefl 0)
      · exact h
    rw [max_eq_right hpraw.le]
    exact max_lt hpraw hlt

/-- C5 counterexample data: a candidate whose signed sum is already
negative, so the clamp hides the escalating penalty. -/
def c5elem : ElementNode :=
  { id := "e-c5", tag := "div", text := "reset", selector := "#c5" }

def c5step : GoalStep :=
  { action := "click", target := { text := some "submit" } }

def c5d : Decision :=
  { action := "click", target := "#c5", reasoning := "", confidence := 1,
    metadata := [] }

/-- C5 counterexample: the same candidate scored after 0 appearances and
after 1 appearance of its selector in recent history returns the same
score 0 (the signed sums are −1 and −2, both clamped), so the score does
not strictly decrease. -/
theorem C5_counterexample :
    c5d.target = c5elem.selector ∧
    scoreElement c5elem c5step ([] ++ [c5d]) [c5elem] =
      scoreElement c5elem c5step [] [c5elem] := by
  constructor <;> decide

/-- C5 witness data. -/
def c5we : ElementNode :=
  { id := "e-c5w", tag := "button", text := "Login", selector := "#login" }

def c5wstep : GoalStep :=
  { action := "click", target := { text := some "Login" } }

def c5wd : Decision :=
  { action := "click", target := "#login", reasoning := "", confidence := 1,
    metadata := [] }

/-- C5 witness: at a concrete positively-scored candidate the amended
monotonicity is strict. -/
theorem C5_loop_avoidance_witness :
    0 < scoreElement c5we c5wstep [] [c5we] ∧
    scoreElement c5we c5wstep ([] ++ [c5wd]) [c5we] <
      scoreElement c5we c5wstep [] [c5we] :=
  ⟨by decide,
   (C5_loop_avoidance c5we c5wstep [] [c5we] c5wd (by decide) (by decide)
      (by decide)).2 (by decide)⟩

/-! ## C6: blacklist filtering -/

/-- C6 amended: an element whose selector is in the blacklist is filtered
out before scoring, so it is never a scored candidate (and hence never the
best candidate); the fallback decisions, however, target the fixed sentinel
string `"body"`, which the claim's universal reading does not except. -/
theorem C6_blacklist_never_scored (goal : GoalStep) (world : List ElementNode)
    (history : List Decision) (blacklist : List String) (s : String)
    (e : ElementNode) (q : ℚ)
    (hs : s ∈ blacklist)
    (hmem : (e, q) ∈ scoredCandidates goal world history blacklist) :
    e.selector ≠ s := by
  unfold scoredCandidates at hmem
  rcases List.mem_filterMap.mp hmem with ⟨x, _, hx⟩
  intro heq
  split at hx
  · exact absurd hx (by simp)
  · split at hx
    · exact absurd hx (by simp)
    · next h2 =>
      apply h2
      have hxe : x = e := by
        split at hx
        · exact congrArg Prod.fst (Option.some.inj hx)
        · exact absurd hx (by simp)
      have hbne : blacklist ≠ [] := by
        rintro rfl
        exact absurd hs (List.not_mem_nil s)
      have hcont : blacklist.contains x.selector = true := by
        rw [hxe, heq]
        exact List.elem_eq_true_of_mem hs
      have hie : blacklist.isEmpty = false := by
        simp [List.isEmpty_iff, hbne]
      rw [hie, hcont]
      rfl

/-- C6 witness data. -/
def c6we : ElementNode :=
  { id := "e-c6w", tag := "button", text := "Login", selector := "#login" }

def c6wstep : GoalStep :=
  { action := "click", target := { text := some "Login" } }

/-- C6 witness: a concrete scored candidate's selector differs from a
concrete blacklisted selector. -/
theorem C6_blacklist_never_scored_witness :
    "#other" ∈ ["#other"] ∧ c6we.selector ≠ "#other" :=
  ⟨by decide,
   C6_blacklist_never_scored c6wstep [c6we] [] ["#other"] "#other" c6we 1.45
     (by decide) (by decide)⟩

def c6step : GoalStep :=
  { action := "click", target := { text := some "Login" } }

/-- C6 counterexample: with `"body"` in the blacklist and no candidates,
`decide` returns a scroll decision whose target `"body"` is a blacklisted
selector, so the claim's "the returned Decision's target is never s" fails
as universally stated. -/
theorem C6_counterexample :
    "body" ∈ ["body"] ∧
    (HeuristicBrain.decide c6step [] [] ["body"]).target = "body" := by
  constructor <;> decide

/-! ## C7: the winning decision's fields -/

/-- C7 amended: for a non-verify step with a winning candidate, the
decision's action is the step's action, its confidence is the winner's
score, its `metadata.text` is `step.value` for `type` actions — and its
target prefers the winner's `selector`, falling back to `shadow_path`
only when the selector is empty (`best_elem.selector or
best_elem.shadow_path or ""`), the reverse of the claimed preference. -/
theorem C7_winner_fields (goal : GoalStep) (world : List ElementNode)
    (history : List Decision) (blacklist : List String)
    (best : ElementNode) (bscore : ℚ) (rest : List (ElementNode × ℚ))
    (hv : goal.action ≠ "verify")
    (hw : sortDesc (scoredCandidates goal world history blacklist) =
      (best, bscore) :: rest) :
    (HeuristicBrain.decide goal world history blacklist).action = goal.action ∧
    (HeuristicBrain.decide goal world history blacklist).target =
      pyOrStr best.selector best.shadow_path ∧
    (HeuristicBrain.decide goal world history blacklist).confidence = bscore ∧
    (HeuristicBrain.decide goal world history blacklist).metadata =
      (if goal.action = "type" then [("text", goal.value)] else []) := by
  simp only [HeuristicBrain.decide, hw]
  rw [if_neg hv]
  exact ⟨rfl, rfl, rfl, rfl⟩

/-- C7 witness data: a winner carrying both a selector and a shadow path. -/
def c7we : ElementNode :=
  { id := "e-c7w", tag := "button", text := "Login", selector := "#login",
    shadow_path := some "host >> #login" }

def c7wstep : GoalStep :=
  { action := "click", target := { text := some "Login" } }

/-- C7 witness: the amended field contract at a concrete winning
candidate. -/
theorem C7_winner_fields_witness :
    (HeuristicBrain.decide c7wstep [c7we] [] []).action = "click" ∧
    (HeuristicBrain.decide c7wstep [c7we] [] []).target =
      pyOrStr c7we.selector c7we.shadow_path ∧
    (HeuristicBrain.decide c7wstep [c7we] [] []).confidence = 1.45 :=
  ⟨(C7_winner_fields c7wstep [c7we] [] [] c7we 1.45 [] (by decide) (by decide)).1,
   (C7_winner_fields c7wstep [c7we] [] [] c7we 1.45 [] (by decide) (by decide)).2.1,
   (C7_winner_fields c7wstep [c7we] [] [] c7we 1.45 [] (by decide) (by decide)).2.2.1⟩

/-- C7 counterexample data. -/
def c7e : ElementNode :=
  { id := "e-c7", tag := "button", text := "Save", selector := "#save",
    shadow_path := some "app-root >> #save" }

def c7step : GoalStep :=
  { action := "click", target := { text := some "Save" } }

/-- C7 counterexample: the winning element has a `shadow_path`, yet the
decision's target is the element's `selector`, not the shadow path the
claim requires. -/
theorem C7_counterexample :
    c7e.shadow_path = some "app-root >> #save" ∧
    (HeuristicBrain.decide c7step [c7e] [] []).target = "#save" ∧
    (HeuristicBrain.decide c7step [c7e] [] []).target ≠ "app-root >> #save" := by
  refine ⟨by decide, by decide, by decide⟩

/-! ## C10: verify steps never click or type, and ignore the value -/

theorem insertDesc_ne_nil (x : ElementNode × ℚ) (l : List (ElementNode × ℚ)) :
    insertDesc x l ≠ [] := by
  cases l with
  | nil => simp [insertDesc]
  | cons y ys =>
    unfold insertDesc
    split <;> simp

theorem sortDesc_eq_nil_iff (l : List (ElementNode × ℚ)) :
    sortDesc l = [] ↔ l = [] := by
  cases l with
  | nil => simp [sortDesc]
  | cons x xs =>
    simp only [sortDesc, List.foldr]
    constructor
    · intro h
      exact absurd h (insertDesc_ne_nil x _)
    · intro h
      exact absurd h (by simp)

/-- C10: for a verify step, `decide` never returns a click or type
decision: with no positive-scoring candidate it returns `wait`/`"body"`
at confidence 0.5, otherwise `verify`/`"body"` at confidence exactly 1.0,
with empty metadata; and the returned action, target, confidence and
metadata are unchanged under any change of the step's `value` — the
confidence-1.0 verify signal does not consult the text to verify. -/
theorem C10_verify_decision (step : GoalStep) (world : List ElementNode)
    (history : List Decision) (blacklist : List String) (v2 : Option String)
    (hv : step.action = "verify") :
    (HeuristicBrain.decide step world history blacklist).action ≠ "click" ∧
    (HeuristicBrain.decide step world history blacklist).action ≠ "type" ∧
    (HeuristicBrain.decide step world history blacklist).target = "body" ∧
    (HeuristicBrain.decide step world history blacklist).metadata = [] ∧
    (scoredCandidates step world history blacklist = [] →
      (HeuristicBrain.decide step world history blacklist).action = "wait" ∧
      (HeuristicBrain.decide step world history blacklist).confidence = 0.5) ∧
    (scoredCandidates step world history blacklist ≠ [] →
      (HeuristicBrain.decide step world history blacklist).action = "verify" ∧
      (HeuristicBrain.decide step world history blacklist).confidence = 1.0) ∧
    (HeuristicBrain.decide { step with value := v2 } world history blacklist).action =
      (HeuristicBrain.decide step world history blacklist).action ∧
    (HeuristicBrain.decide { step with value := v2 } world history blacklist).target =
      (HeuristicBrain.decide step world history blacklist).target ∧
    (HeuristicBrain.decide { step with value := v2 } world history blacklist).confidence =
      (HeuristicBrain.decide step world history blacklist).confidence ∧
    (HeuristicBrain.decide { step with value := v2 } world history blacklist).metadata =
      (HeuristicBrain.decide step world history blacklist).metadata := by
  have hsc : scoredCandidates { step with value := v2 } world history blacklist =
      scoredCandidates step world history blacklist := rfl
  have hv2 : ({ step with value := v2 } : GoalStep).action = "verify" := hv
  unfold HeuristicBrain.decide
  rw [hsc]
  rcases hsort : sortDesc (scoredCandidates step world history blacklist) with
    _ | ⟨⟨be, bs⟩, rest⟩
  · have hempty : scoredCandidates step world history blacklist = [] :=
      (sortDesc_eq_nil_iff _).mp hsort
    simp [hv, hv2, hempty]
  · have hne : scoredCandidates step world history blacklist ≠ [] := by
      intro h
      rw [h] at hsort
      exact absurd hsort (by simp [sortDesc])
    simp [hv, hv2, hne]

/-- C10 witness data. -/
def c10e : ElementNode :=
  { id := "e-c10", tag := "a", text := "Welcome back", selector := "#w" }

def c10step : GoalStep :=
  { action := "verify", target := { text := some "Welcome" },
    value := some "Welcome" }

/-- C10 witness: at a concrete verify step with a positive-scoring
candidate, the decision is `verify`/`"body"`/1.0 and is unchanged when the
value is replaced by a text that occurs nowhere in the world state. -/
theorem C10_verify_decision_witness :
    (HeuristicBrain.decide c10step [c10e] [] []).action = "verify" ∧
    (HeuristicBrain.decide c10step [c10e] [] []).confidence = 1.0 ∧
    (HeuristicBrain.decide { c10step with value := some "absent text" }
      [c10e] [] []).confidence =
      (HeuristicBrain.decide c10step [c10e] [] []).confidence :=
  ⟨((C10_verify_decision c10step [c10e] [] [] (some "absent text") rfl).2.2.2.2.2.1
      (by decide)).1,
   ((C10_verify_decision c10step [c10e] [] [] (some "absent text") rfl).2.2.2.2.2.1
      (by decide)).2,
   (C10_verify_decision c10step [c10e] [] [] (some "absent text") rfl).2.2.2.2.2.2.2.2.1⟩

/-! ## C1: verify-step completion in the orchestration loop -/

/-- C1 amended: the loop judges a verify step complete iff either the
step's value is a non-empty text found on the page AND the most recent
decision's confidence is at least 0.6, or the most recent decision is a
`verify` decision with confidence at least 0.9 — not iff the text is found
on the page. -/
theorem C1_goalAchieved_verify_rule (pg : ParsedGoal) (cs : GoalStep)
    (decisions : List Decision) (vis : String → Bool) (url : String)
    (hc : pg.current_step = some cs) (hv : cs.action = "verify") :
    goalAchieved pg decisions vis url = true ↔
      (((∃ v, cs.value = some v ∧ v ≠ "" ∧ vis v = true) ∧
        ∃ d, decisions.getLast? = some d ∧ (0.6 : ℚ) ≤ d.confidence) ∨
       (∃ d, decisions.getLast? = some d ∧ d.action = "verify" ∧
         (0.9 : ℚ) ≤ d.confidence)) := by
  simp only [goalAchieved, hc]
  rw [if_pos hv]
  cases hval : cs.value <;> cases hlast : decisions.getLast? <;>
    simp [optTruthy, Bool.and_eq_true, Bool.or_eq_true, decide_eq_true_iff,
      beq_iff_eq]

/-- C1 witness data. -/
def c1wstep : GoalStep :=
  { action := "verify", target := {}, value := some "Welcome" }

def c1wpg : ParsedGoal :=
  { raw_goal := "verify Welcome", steps := [c1wstep] }

def c1wd : Decision :=
  { action := "verify", target := "body", reasoning := "", confidence := 1,
    metadata := [] }

/-- C1 witness: a verify step is judged complete from a confidence-1.0
verify decision even though the text-containment oracle reports the text
nowhere on the page. -/
theorem C1_goalAchieved_verify_rule_witness :
    goalAchieved c1wpg [c1wd] (fun _ => false) "http://x" = true :=
  (C1_goalAchieved_verify_rule c1wpg c1wstep [c1wd] (fun _ => false) "http://x"
      rfl rfl).mpr
    (Or.inr ⟨c1wd, rfl, rfl, by decide⟩)

/-- C1 counterexample data. -/
def c1step : GoalStep :=
  { action := "verify", target := {}, value := some "Welcome" }

def c1pg : ParsedGoal :=
  { raw_goal := "verify Welcome", steps := [c1step] }

def c1wait : Decision :=
  { action := "wait", target := "body", reasoning := "", confidence := 0.5,
    metadata := [] }

def c1vis : String → Bool := fun _ => true

/-- C1 counterexample: the target text IS found on the page by the
containment check, yet the loop does not judge the verify step complete
(the most recent decision is a wait at confidence 0.5 < 0.6), refuting
"complete if and only if the target text is found". -/
theorem C1_counterexample :
    c1pg.current_step = some c1step ∧ c1step.action = "verify" ∧
    c1step.value = some "Welcome" ∧ c1vis "Welcome" = true ∧
    goalAchieved c1pg [c1wait] c1vis "http://x" = false := by
  refine ⟨rfl, rfl, rfl, rfl, by decide⟩

/-! ## C2: the advance-or-stop check with no current step -/

/-- Benign collaborators: never blocked, never throwing, an empty world
state, with the router delegating to the heuristic brain. -/
def trivialCollab : Collaborators :=
  { sense := fun _ => .ok { world_state := [], is_blocked := false, reason := "" },
    resolve_block := fun _ _ => .ok false,
    brain := fun g w h _ bl => .ok (HeuristicBrain.decide g w h bl),
    url_at := fun _ _ => .ok "http://example.com",
    snapshot := fun _ _ => .ok "snapshot-0",
    execute := fun _ _ => .ok true,
    text_visible := fun _ => true,
    report_path := "report.html" }

def c2cfg : SentinelConfig := { url := "http://example.com", goal := "" }

/-- C2: an empty goal parses to zero steps, so the first loop iteration
reaches the advance-or-stop check with `current_step = None`; the code
breaks out of the loop and returns `success = False` with the error
"Max steps reached without achieving goal" (after logging "All goal steps
completed"), instead of stopping successfully as the claim states. -/
theorem C2_empty_goal_run_fails :
    (RegexGoalParser.parse "").steps = [] ∧
    SentinelOrchestrator.run trivialCollab c2cfg =
      .ok { success := false, goal := "", url := "http://example.com", steps := 0,
            max_steps := 50, decisions := [], report_path := some "report.html",
            error := some "Max steps reached without achieving goal" } := by
  exact ⟨rfl, rfl⟩

/-! ## C8: failure handling at the public `run` boundary -/

def exceptIsOk : Except String ExecutionResult → Bool
  | .ok _ => true
  | .error _ => false

/-- On the `.ok` path, a failed run carries an error value. -/
def exceptFailureHasError : Except String ExecutionResult → Bool
  | .ok r => r.success || r.error.isSome
  | .error _ => false

/-- On the `.ok` path, the report was generated. -/
def exceptReportIs (x : Except String ExecutionResult) (p : String) : Bool :=
  match x with
  | .ok r => r.report_path == some p
  | .error _ => false

/-- Every outcome of the loop body is a successful early return (with its
report generated and no error), a fall-through, or a caught exception. -/
theorem runLoop_shape (C : Collaborators) (cfg : SentinelConfig) :
    ∀ remaining pg i decisions blacklist,
      (∃ res, runLoop C cfg remaining pg i decisions blacklist = .finished res ∧
        res.success = true ∧ res.report_path = some C.report_path ∧
        res.error = none) ∨
      (∃ em ds, runLoop C cfg remaining pg i decisions blacklist = .fellThrough em ds) ∨
      (∃ e ds, runLoop C cfg remaining pg i decisions blacklist = .exn e ds) := by
  intro remaining
  induction remaining with
  | zero =>
    intro pg i ds bl
    right; left
    exact ⟨none, ds, rfl⟩
  | succ r ih =>
    intro pg i ds bl
    unfold runLoop
    repeat' split
    all_goals first
      | (left; exact ⟨_, rfl, rfl, rfl, rfl⟩)
      | (right; left; exact ⟨_, _, rfl⟩)
      | (right; right; exact ⟨_, _, rfl⟩)
      | (exact ih _ _ _ _)

/-- C8 amended: once `_initialize()` (which, with the goal parse, runs
before the `try` block) has succeeded, `run` never propagates an
exception: every loop-phase failure — navigation, sensing, deciding,
acting, blocked-state handling — is returned as an `ExecutionResult` with
`success = false` and an error value (the exception's message, which
Python's `str(e)` may render as an empty string), and a report is
generated on every such path. -/
theorem C8_run_no_propagation (C : Collaborators) (cfg : SentinelConfig)
    (h : C.init_error = none) :
    exceptIsOk (SentinelOrchestrator.run C cfg) = true ∧
    exceptFailureHasError (SentinelOrchestrator.run C cfg) = true ∧
    exceptReportIs (SentinelOrchestrator.run C cfg) C.report_path = true := by
  cases hn : C.nav_error with
  | some e =>
    simp [SentinelOrchestrator.run, h, hn, exceptIsOk, exceptFailureHasError,
      exceptReportIs]
  | none =>
    rcases runLoop_shape C cfg cfg.max_steps (RegexGoalParser.parse cfg.goal) 0 [] []
      with ⟨res, hr, hs, hp, he⟩ | ⟨em, ds, hr⟩ | ⟨e, ds, hr⟩
    · simp [SentinelOrchestrator.run, h, hn, hr, exceptIsOk, exceptFailureHasError,
        exceptReportIs, hs, hp]
    · simp [SentinelOrchestrator.run, h, hn, hr, exceptIsOk, exceptFailureHasError,
        exceptReportIs]
    · simp [SentinelOrchestrator.run, h, hn, hr, exceptIsOk, exceptFailureHasError,
        exceptReportIs]

def c8wcfg : SentinelConfig :=
  { url := "http://example.com", goal := "Click the Login button" }

/-- C8 witness: the amended no-propagation contract at concrete benign
collaborators. -/
theorem C8_run_no_propagation_witness :
    exceptIsOk (SentinelOrchestrator.run trivialCollab c8wcfg) = true ∧
    exceptFailureHasError (SentinelOrchestrator.run trivialCollab c8wcfg) = true ∧
    exceptReportIs (SentinelOrchestrator.run trivialCollab c8wcfg)
      trivialCollab.report_path = true :=
  C8_run_no_propagation trivialCollab c8wcfg rfl

/-- C8 counterexample data: a driver whose construction raises. -/
def c8collab : Collaborators :=
  { trivialCollab with init_error := some "WebDriverException: boom" }

/-- C8 counterexample: an exception raised during initialization escapes
`run` uncaught (and no result object or report is produced), because
`_initialize()` runs before the `try` block; this refutes "run() never
propagates an exception ... including collaborators that raise exceptions
during initialization". -/
theorem C8_counterexample :
    SentinelOrchestrator.run c8collab c8wcfg =
      .error "WebDriverException: boom" := rfl

/-! ## C9: the two-step type-then-click parse example -/

def c9goal : String := "Type 'admin' in user field and then click Submit"

/-- C9: evaluating the parser at the claim's input.  The second step is as
claimed, but the first step's value is `"'admin'"` — the surrounding
quotes are kept, because the context extractor first strips `" in user
field"` into the context hint, after which the quoted-value regex (which
requires whitespace after the closing quote) cannot match and the unquoted
branch captures the quotes — and its target text is the default
`"search"`, not a text referring to `"user"` (that phrase survives only as
the context hint).  This contradicts the claim and the repository's own
unit test `test_parse_multi_step_and_then`. -/
theorem C9_parse_divergence :
    ((RegexGoalParser.parse c9goal).steps.map (fun st => st.action)) =
      ["type", "click"] ∧
    ((RegexGoalParser.parse c9goal).steps.get? 0).map (fun st => st.value) =
      some (some "'admin'") ∧
    ((RegexGoalParser.parse c9goal).steps.get? 0).map (fun st => st.target.text) =
      some (some "search") ∧
    ((RegexGoalParser.parse c9goal).steps.get? 0).map (fun st => st.context_hint) =
      some (some "user field") ∧
    ((RegexGoalParser.parse c9goal).steps.get? 1).map (fun st => st.target.text) =
      some (some "Submit") := by
  refine ⟨rfl, rfl, rfl, rfl, rfl⟩

end Sentinel
